import Mathlib

/-!
# Verification of the PDDL plan/problem validation pipeline

Shallow embedding of the repository's core components:

* `src/case_demo/run_validate.py` — VAL output classifier (`parse_val_output`,
  `extract_error_signature`, `ERROR_PATTERNS`), runner (`run_validate`) and
  result ledger (`append_to_dataset`, `generate_summary`).
* `src/problem_validation/generate_problem.py` — verifier adapter (`run_val`),
  local syntax pre-check (`quick_pddl_checks`), name sanitizer
  (`sanitize_problem_name`), and the direct-PDDL convergence loop of `main`
  (bounded retries, temperature decay, deterministic template fallback).

Modelling conventions: Python text is `String`; `str.splitlines` is modelled as
splitting on the newline character; `str.lower` is modelled on the ASCII
fragment; the regular expressions of the pattern table are alternations of
literal substrings and are modelled as such; external processes (the LLM and
the VAL binary) are explicit function-valued parameters; file writes are
explicit state (lists of records / the last written artifact); the SHA-1
digest and the wall-clock timestamp are opaque parameters.  All definitions
are executable and structurally recursive so concrete runs evaluate inside
the kernel.
-/

namespace PDDLVal

/-! ## String utilities (executable models of the Python primitives) -/

/-- ASCII lower-casing of one character, the fragment of Python `str.lower`
exercised by this code base (non-ASCII characters are left unchanged). -/
def lowerChar (c : Char) : Char :=
  match c with
  | 'A' => 'a' | 'B' => 'b' | 'C' => 'c' | 'D' => 'd' | 'E' => 'e' | 'F' => 'f'
  | 'G' => 'g' | 'H' => 'h' | 'I' => 'i' | 'J' => 'j' | 'K' => 'k' | 'L' => 'l'
  | 'M' => 'm' | 'N' => 'n' | 'O' => 'o' | 'P' => 'p' | 'Q' => 'q' | 'R' => 'r'
  | 'S' => 's' | 'T' => 't' | 'U' => 'u' | 'V' => 'v' | 'W' => 'w' | 'X' => 'x'
  | 'Y' => 'y' | 'Z' => 'z'
  | c => c

/-- Model of Python `str.lower()`. -/
def strToLower (s : String) : String :=
  String.mk (s.toList.map lowerChar)

/-- Remove leading and trailing whitespace from a character list. -/
def trimChars (l : List Char) : List Char :=
  ((l.dropWhile Char.isWhitespace).reverse.dropWhile Char.isWhitespace).reverse

/-- Model of Python `str.strip()`. -/
def strTrim (s : String) : String :=
  String.mk (trimChars s.toList)

/-- Model of Python `str.lstrip()`. -/
def strLTrim (s : String) : String :=
  String.mk (s.toList.dropWhile Char.isWhitespace)

/-- First `n` characters, Python `s[:n]`. -/
def strTake (s : String) (n : Nat) : String :=
  String.mk (s.toList.take n)

/-- Model of Python `str.startswith`. -/
def strStartsWith (s p : String) : Bool :=
  p.toList.isPrefixOf s.toList

/-- Does `pat` occur as a contiguous sublist of `hay`? -/
def containsSub (hay pat : List Char) : Bool :=
  match hay with
  | [] => pat.isEmpty
  | _ :: rest => pat.isPrefixOf hay || containsSub rest pat

/-- Model of Python `pat in s` (substring containment). -/
def strContains (s pat : String) : Bool :=
  containsSub s.toList pat.toList

/-- Index of the first occurrence of `pat` in `hay` starting from index `i`. -/
def findSubAux (pat : List Char) : List Char → Nat → Option Nat
  | [], i => if pat.isEmpty then some i else none
  | c :: cs, i => if pat.isPrefixOf (c :: cs) then some i else findSubAux pat cs (i + 1)

/-- Model of Python `s.find(pat)` restricted to successful search (`none` for -1). -/
def strFind (s pat : String) : Option Nat :=
  findSubAux pat.toList s.toList 0

/-- Split a character list on a separator character; mirrors Python
`str.split(sep)` semantics (the empty list yields one empty field). -/
def splitOnChar (sep : Char) : List Char → List (List Char)
  | [] => [[]]
  | c :: cs =>
    if c = sep then
      [] :: splitOnChar sep cs
    else
      match splitOnChar sep cs with
      | l :: ls => (c :: l) :: ls
      | [] => [[c]]

/-- Model of Python `str.splitlines()` for newline-separated text. -/
def splitLines (s : String) : List String :=
  (splitOnChar '\n' s.toList).map String.mk

/-- Model of Python `"\n".join(lines)`. -/
def joinLines : List String → String
  | [] => ""
  | [l] => l
  | l :: ls => l ++ "\n" ++ joinLines ls

/-- Model of Python `sep.join(parts)`. -/
def joinWith (sep : String) : List String → String
  | [] => ""
  | [l] => l
  | l :: ls => l ++ sep ++ joinWith sep ls

/-- Read a nonempty run of decimal digits into a number. -/
def parseDigitsAux : List Char → Nat → Option Nat
  | [], acc => some acc
  | c :: cs, acc =>
    if c.isDigit then parseDigitsAux cs (acc * 10 + (c.toNat - 48)) else none

/-- Model of Python `int(s)` on an already-stripped decimal literal with an
optional sign (`none` models the raised `ValueError`). -/
def parseIntPy (s : String) : Option Int :=
  match s.toList with
  | [] => none
  | '-' :: rest =>
    match rest with
    | [] => none
    | _ => (parseDigitsAux rest 0).map (fun n => -(n : Int))
  | '+' :: rest =>
    match rest with
    | [] => none
    | _ => (parseDigitsAux rest 0).map (fun n => (n : Int))
  | l => (parseDigitsAux l 0).map (fun n => (n : Int))

/-! ## Output Classifier (`src/case_demo/run_validate.py`) -/

/-- The ordered error-pattern registry `ERROR_PATTERNS`.  Each regular
expression of the source is an alternation of literal substrings and is
embedded as the list of its alternatives. -/
def ERROR_PATTERNS : List (String × List String) :=
  [ ("unsatisfied_precondition", ["unsatisfied precondition"]),
    ("type_error", ["type problem"]),
    ("bad_plan", ["bad plan description"]),
    ("bad_plan", ["bad plan"]),
    ("bad_plan", ["failed plans"]),
    ("parser_error", ["parser"]),
    ("parser_error", ["failed to read"]),
    ("segfault", ["segmentation fault", "æ®µé”™è¯¯", "core dumped"]) ]

/-- Does one of the literal alternatives of a pattern occur in the (already
lower-cased) text?  Models `re.search(pattern, lower, re.IGNORECASE)`. -/
def patMatches (pat : List String) (lowered : String) : Bool :=
  pat.any (fun p => strContains lowered p)

/-- Scan a list with an explicit running index (Python `enumerate`),
returning the index of the first element satisfying the predicate. -/
def findIdxFrom (p : String → Bool) : List String → Nat → Option Nat
  | [], _ => none
  | l :: ls, i => if p l then some i else findIdxFrom p ls (i + 1)

/-- Index of the first line matching one of the pattern's alternatives
case-insensitively (`re.search(pattern, line, re.IGNORECASE)`). -/
def firstMatchIdx (pat : List String) (lines : List String) : Option Nat :=
  findIdxFrom (fun line => patMatches pat (strToLower line)) lines 0

/-- `extract_error_signature`: find the first pattern of `ERROR_PATTERNS`
matching the full lower-cased text, then locate the first matching line and
return a context window of `lines[idx-5 : idx+10]`; if no single line matches,
fall back to the first 800 characters. -/
def extract_error_signature (text : String) : String × Option String :=
  let lower := strToLower text
  let lines := splitLines text
  match ERROR_PATTERNS.find? (fun tp => patMatches tp.2 lower) with
  | none => ("unknown", none)
  | some tp =>
    match firstMatchIdx tp.2 lines with
    | some idx =>
      let s := idx - 5
      let e := min lines.length (idx + 10)
      (tp.1, some (strTrim (joinLines ((lines.drop s).take (e - s)))))
    | none => (tp.1, some (strTrim (strTake text 800)))

/-- Modelled from the spec: the signature extraction exactly as claim C8
words it — the context window runs from 5 lines before *through 10 lines
after* the first matching line (indices `idx-5 .. idx+10` inclusive), with
the same 800-character fallback. -/
def extract_error_signature_claimed (text : String) : String × Option String :=
  let lower := strToLower text
  let lines := splitLines text
  match ERROR_PATTERNS.find? (fun tp => patMatches tp.2 lower) with
  | none => ("unknown", none)
  | some tp =>
    match firstMatchIdx tp.2 lines with
    | some idx => (tp.1, some (strTrim (joinLines ((lines.take (idx + 11)).drop (idx - 5)))))
    | none => (tp.1, some (strTrim (strTake text 800)))

/-- The structured classification record built by `parse_val_output`. -/
structure Parsed where
  success : Bool
  error_type : String
  error_signature : String
  message : String
deriving DecidableEq, Repr

/-- The success test of `parse_val_output`: the lower-cased text contains a
line whose stripped content is exactly `plan valid`
(`re.search(r"^\s*plan valid\s*$", lower, re.MULTILINE)`). -/
def hasPlanValidLine (text : String) : Bool :=
  (splitLines (strToLower text)).any (fun l => strTrim l == "plan valid")

/-- Is a line one of the noisy type-checking lines removed before
classification? -/
def isNoiseLine (line : String) : Bool :=
  strStartsWith (strToLower line) "type-checking" ||
    strContains (strToLower line) "...action passes type checking"

/-- The display copy of the text with noisy type-checking lines removed. -/
def cleanedText (text : String) : String :=
  strTrim (joinLines ((splitLines text).filter (fun l => !isNoiseLine l)))

/-- `parse_val_output`: success test first, then noise removal, then
keyword-based error extraction. -/
def parse_val_output (text : String) : Parsed :=
  if hasPlanValidLine text then
    { success := true, error_type := "valid",
      error_signature := "Plan valid", message := "Plan valid" }
  else
    let cleaned := cleanedText text
    let es := extract_error_signature cleaned
    { success := false
      error_type := es.1
      error_signature :=
        match es.2 with
        | none => "Unrecognized error pattern"
        | some s => if s == "" then "Unrecognized error pattern" else s
      message := strTake cleaned 2000 }

/-! ## Verifier runner and result ledger (`src/case_demo/run_validate.py`) -/

/-- The observable result of a successfully launched `subprocess.run`. -/
structure ProcOut where
  stdout : String
  stderr : String
  returncode : Int
deriving DecidableEq, Repr

/-- The full per-run record written to `results/raw/<task>.json`. -/
structure ValidateRecord where
  task_id : String
  domain_file : String
  problem_file : String
  plan_file : String
  command : String
  timestamp : String
  success : Bool
  exit_code : Int
  output_hash : String
  parsed : Parsed
  stdoutF : String
  stderrF : String
deriving DecidableEq, Repr

/-- `run_validate`: launch the verifier and build the record.  The process
launch is the explicit argument `launch`; `Except.error` models the
`FileNotFoundError`/`OSError` raised by `subprocess.run` when the binary
cannot be launched — the source has no `try`/`except`, so that fault
propagates unchanged.  The SHA-1 digest and the timestamp are the opaque
parameters `hash` and `now`.  The raw-JSON write and the
`append_to_dataset` call are modelled separately (`append_to_dataset`). -/
def run_validate (hash : String → String) (now : String) (task_id : String)
    (launch : Except String ProcOut) : Except String ValidateRecord :=
  match launch with
  | .error e => .error e
  | .ok proc =>
    let problem_file := "problem/" ++ task_id ++ ".problem.pddl"
    let plan_file := "plan/" ++ task_id ++ ".plan"
    let command := ["validate", "-v", "domain.pddl", problem_file, plan_file]
    let stdout := proc.stdout
    let stderr := proc.stderr
    let exit_code := proc.returncode
    let combined := stdout ++ "\n" ++ stderr
    .ok { task_id := task_id
          domain_file := "domain.pddl"
          problem_file := problem_file
          plan_file := plan_file
          command := joinWith " " command
          timestamp := now
          success := exit_code == 0
          exit_code := exit_code
          output_hash := hash combined
          parsed := parse_val_output combined
          stdoutF := stdout
          stderrF := stderr }

/-- The compact projection appended to `dataset.jsonl`. -/
structure CompactRecord where
  task_id : String
  success : Bool
  exit_code : Int
  output_hash : String
  parsed : Parsed
  timestamp : String
deriving DecidableEq, Repr

/-- The compact projection of a full record (the dict literal built inside
`append_to_dataset`). -/
def toCompact (r : ValidateRecord) : CompactRecord :=
  { task_id := r.task_id, success := r.success, exit_code := r.exit_code,
    output_hash := r.output_hash, parsed := r.parsed, timestamp := r.timestamp }

/-- `reset_dataset`: truncate `dataset.jsonl`. -/
def reset_dataset : List CompactRecord := []

/-- `load_existing_hashes`: the hashes present in the dataset file; falsy
(empty) hashes are not collected (`if h:`). -/
def load_existing_hashes (ds : List CompactRecord) : List String :=
  (ds.map (fun c => c.output_hash)).filter (fun h => h ≠ "")

/-- `append_to_dataset`: append the compact record unless its `output_hash`
already occurs; the boolean reports `true` for appended and `false` for
the skipped-duplicate no-op. -/
def append_to_dataset (ds : List CompactRecord) (record : ValidateRecord) :
    List CompactRecord × Bool :=
  if record.output_hash ∈ load_existing_hashes ds then (ds, false)
  else (ds ++ [toCompact record], true)

/-- Appending a batch of records to a dataset state, left to right. -/
def foldAppend (ds : List CompactRecord) (rs : List ValidateRecord) : List CompactRecord :=
  rs.foldl (fun d r => (append_to_dataset d r).1) ds

/-- Round a rational to the nearest integer, ties to even — Python's
`round`. -/
def roundHalfEven (q : ℚ) : ℤ :=
  let f := ⌊q⌋
  let r := q - f
  if r < 1/2 then f
  else if 1/2 < r then f + 1
  else if f % 2 = 0 then f else f + 1

/-- Python `round(q, 3)`. -/
def round3 (q : ℚ) : ℚ :=
  (roundHalfEven (q * 1000) : ℚ) / 1000

/-- The regenerable summary document. -/
structure Summary where
  total_records : Nat
  valid_plans : Nat
  invalid_plans : Nat
  valid_rate : ℚ
  classification : String → Nat

/-- The classification counter of `generate_summary`: per record, key
`"valid"` when `parsed.success` and the record's `error_type` otherwise. -/
def classKey (c : CompactRecord) : String :=
  if c.parsed.success then "valid" else c.parsed.error_type

/-- `generate_summary`: a full recomputation over the dataset lines. -/
def generate_summary (ds : List CompactRecord) : Summary :=
  let total := ds.length
  let valid := (ds.filter (fun c => c.parsed.success)).length
  { total_records := total
    valid_plans := valid
    invalid_plans := total - valid
    valid_rate := if total > 0 then round3 ((valid : ℚ) / (total : ℚ)) else 0
    classification := fun k => (ds.filter (fun c => classKey c == k)).length }

/-! ## Verifier adapter and helpers (`src/problem_validation/generate_problem.py`) -/

/-- Parse one `errors:`-summary line, e.g. `Errors: 1, warnings: 0`:
take the part before the first comma, the part after the first colon, strip
and read an integer; `none` models the exception caught by the `except`
branch. -/
def parseErrorsCount (line : String) : Option Int :=
  let l := (strTrim (strToLower line)).toList
  let errPart := (splitOnChar ',' l).headD []
  match splitOnChar ':' errPart with
  | _ :: second :: _ => parseIntPy (String.mk (trimChars second))
  | _ => none

/-- The reversed-line scan of `run_val`: find the first line (from the end of
the output) whose stripped lower-case form starts with `errors:`; `none`
means no such line, `some none` means the line was found but the count failed
to parse (the `except: break` path). -/
def scanErrorsLines : List String → Option (Option Int)
  | [] => none
  | l :: ls =>
    if strStartsWith (strTrim (strToLower l)) "errors:" then some (parseErrorsCount l)
    else scanErrorsLines ls

/-- The success decision of `run_val` from the captured stdout (stderr is
merged into stdout) and the exit code. -/
def run_val_success (stdout : String) (returncode : Int) : Bool :=
  let output := strToLower (strTrim stdout)
  if strContains output "parser failed to read file" then false
  else
    match scanErrorsLines (splitLines stdout).reverse with
    | some (some n) => n == 0
    | some none => returncode == 0
    | none => returncode == 0

/-- `run_val`: the pair returned to the caller, `(success, stdout.strip())`. -/
def run_val (stdout : String) (returncode : Int) : Bool × String :=
  (run_val_success stdout returncode, strTrim stdout)

/-- The last line of the output (first from the end) whose stripped
lower-case form begins with `errors:`. -/
def lastErrorsLine (stdout : String) : Option String :=
  ((splitLines stdout).reverse).find? (fun l => strStartsWith (strTrim (strToLower l)) "errors:")

/-- Modelled from the spec: the success condition exactly as claim C7 words
it — `success = true` exactly when the last line beginning with `errors:`
parses to a count of 0, falling back to the exit code being 0 when no such
line is found.  (This omits the `parser failed to read file` short-circuit
present in the source.) -/
def run_val_success_claimed (stdout : String) (returncode : Int) : Bool :=
  match lastErrorsLine stdout with
  | some l => parseErrorsCount l == some 0
  | none => returncode == 0

/-- The amended description of `run_val`'s success condition: no
`parser failed to read file` anywhere in the stripped lower-cased output,
and then the last `errors:` line decides (count 0), with the exit code as
fallback when no such line exists or its count fails to parse. -/
def run_val_success_described (stdout : String) (returncode : Int) : Bool :=
  if strContains (strToLower (strTrim stdout)) "parser failed to read file" then false
  else
    match lastErrorsLine stdout with
    | some l =>
      match parseErrorsCount l with
      | some n => n == 0
      | none => returncode == 0
    | none => returncode == 0

/-- `sanitize_problem_name` with its default fallback `"problem"`: keep the
alphanumeric-or-underscore characters of the lower-cased name, or the
fallback when nothing survives. -/
def sanitize_problem_name (name : String) : String :=
  let cleaned := String.mk (((strToLower name).toList).filter (fun ch => ch.isAlphanum || ch == '_'))
  if cleaned == "" then "problem" else cleaned

/-- The deterministic `PROBLEM_TEMPLATE`, as a function of the interpolated
`problem_name`. -/
def PROBLEM_TEMPLATE (problem_name : String) : String :=
  "(define (problem " ++ problem_name ++ ")
  (:domain mobileworld_generic)

  (:objects
    home_screen search_screen results_screen - screen
    search_button back_button - target
    search_field - field
    query_text - text
    success_status - goal_status
    up down - direction
  )

  (:init
    (at-screen home_screen)

    (target-visible search_button home_screen)
    (field-visible search_field home_screen)

    (click-transition search_button home_screen search_screen)
    (back-link search_screen home_screen)

    (scroll-transition down search_screen results_screen)
  )

  (:goal
    (and
      (status-set success_status)
    )
  )
)"

/-- Scan the parenthesis balance of a candidate; `some msg` is the failure
message of `quick_pddl_checks`, `none` means balanced. -/
def parenBalance : List Char → Int → Option String
  | [], bal =>
    if bal ≠ 0 then some "parenthesis imbalance detected (extra \x27(\x27)" else none
  | c :: cs, bal =>
    if c = '(' then parenBalance cs (bal + 1)
    else if c = ')' then
      if bal - 1 < 0 then some "parenthesis imbalance detected (extra \x27)\x27)"
      else parenBalance cs (bal - 1)
    else parenBalance cs bal

/-- `quick_pddl_checks`: balanced parentheses, then the four required
structural sections, in order. -/
def quick_pddl_checks (text : String) : Bool × String :=
  match parenBalance text.toList 0 with
  | some msg => (false, msg)
  | none =>
    let low := strToLower text
    match [":domain", "(:objects", "(:init", "(:goal"].find? (fun tok => !(strContains low tok)) with
    | some tok => (false, "missing required section: " ++ tok)
    | none => (true, "")

/-- Strip backticks from both ends of a character list (Python
`t.strip("`")` inside `extract_problem_pddl`). -/
def stripBackticks (l : List Char) : List Char :=
  ((l.dropWhile (fun c => c = Char.ofNat 96)).reverse.dropWhile (fun c => c = Char.ofNat 96)).reverse

/-- `extract_problem_pddl`: strip code fences and keep the content starting
from `(define`. -/
def extract_problem_pddl (text : String) : String :=
  let t := strTrim text
  let t :=
    if strStartsWith t "```" then
      let t1 := strTrim (String.mk (stripBackticks t.toList))
      if strStartsWith (strToLower t1) "pddl" then strLTrim (String.mk (t1.toList.drop 4))
      else t1
    else t
  match strFind (strToLower t) "(define" with
  | some idx => strTrim (String.mk (t.toList.drop idx))
  | none => strTrim t

/-- Collect the `(:types ...)` block lines: the line containing `(:types`
starts capture (and is never the break line), later captured lines stop at
the first one containing a closing parenthesis. -/
def captureTypesRest : List String → List String
  | [] => []
  | l :: ls => if strContains l ")" then [l] else l :: captureTypesRest ls

/-- Scan for the start of the `(:types` block. -/
def captureTypes : List String → List String
  | [] => []
  | l :: ls => if strContains l "(:types" then l :: captureTypesRest ls else captureTypes ls

/-- Replace all occurrences of `pat` (left to right, non-overlapping), with
an explicit fuel equal to the input length. -/
def replaceAllFuel (pat repl : List Char) : Nat → List Char → List Char
  | 0, l => l
  | _ + 1, [] => []
  | fuel + 1, c :: cs =>
    if pat.isPrefixOf (c :: cs) && !pat.isEmpty then
      repl ++ replaceAllFuel pat repl fuel (List.drop (pat.length - 1) cs)
    else c :: replaceAllFuel pat repl fuel cs

/-- Model of Python `str.replace(pat, repl)`. -/
def strReplace (s pat repl : String) : String :=
  String.mk (replaceAllFuel pat.toList repl.toList s.toList.length s.toList)

/-- Model of Python `str.split()` (split on whitespace runs, no empties). -/
def splitWs (s : String) : List String :=
  ((s.toList.splitOnP Char.isWhitespace).map String.mk).filter (fun t => t ≠ "")

/-- `extract_domain_types`: surface the tokens of the domain's `(:types`
block, dropping the `-` separators. -/
def extract_domain_types (domain_text : String) : String :=
  let types_block := captureTypes (splitLines domain_text)
  let joined := joinWith " " types_block
  let joined := strReplace (strReplace joined "(:types" "") ")" ""
  strTrim (joinWith " " ((splitWs joined).filter (fun t => t ≠ "-")))

/-- `build_pddl_prompt`: the initial direct-PDDL generation prompt. -/
def build_pddl_prompt (task_text rules_text app_text domain_text : String) : String :=
"You are a PDDL expert.

Your task is to generate a valid PDDL problem.pddl file
based on the following information.

====================
[User Task]
" ++ task_text ++ "

====================
[System Rules]
" ++ rules_text ++ "

====================
[Application Description]
" ++ app_text ++ "

====================
[PDDL Domain]
" ++ domain_text ++ "

====================
Output requirements:
- Output ONLY the PDDL problem text (no markdown, no code fences, no commentary).
- The problem must strictly conform to the given domain.
- All objects, predicates, and types must be declared.
- Use meaningful object names.
- Ensure the problem includes (:domain mobileworld_generic).

CRITICAL PDDL SYNTAX RULES:
- In :objects, every object MUST be declared with a type using the format:
  object1 object2 - type
- Do NOT use string literals or quotation marks.
- Do NOT use (not ...) in :init. Absence means false.
- Every symbol must be declared with a type from the domain.
- Declare directions explicitly if used (e.g., up down - direction).
- Keep parentheses balanced; no extra comments.

SEMANTIC REQUIREMENTS (VERY IMPORTANT):

- The goal MUST NOT be satisfied by executing the `status` action alone.
  A problem whose goal is only (status-set ...) is INVALID for this task.

- The goal MUST include at least ONE task-related constraint derived from the domain, such as:
  - being at a specific screen using (at-screen ?s)
  - having text entered using (text-entered ?txt) or (field-has-text ?f ?txt)
  - answering a text using (answered ?txt)

- The initial state and objects MUST be constructed so that the above constraints are meaningful
  and achievable using the actions in the domain.

- The problem should require at least TWO actions to reach the goal
  (i.e., not a trivial one-step solution).

- All objects used in goal predicates MUST be declared in :objects with correct types.

- The chosen goal constraints MUST reflect the user task, not arbitrary predicates.

EXAMPLES OF INVALID GOALS:
- (and (status-set success_status))
- Any goal that can be satisfied without navigating, typing, or answering.

EXAMPLES OF VALID GOALS:
- (and (at-screen results_screen) (status-set success_status))
- (and (field-has-text search_field query_text) (status-set success_status))
- (and (answered result_text) (status-set success_status))"

/-- `build_repair_prompt`: the repair prompt built from the previous invalid
candidate and the verifier error text. -/
def build_repair_prompt (previous_problem val_error task_text rules_text app_text domain_text : String) : String :=
"You are a PDDL expert and debugger.

The previously generated PDDL problem is INVALID.

[User Task]
" ++ task_text ++ "

[System Rules]
" ++ rules_text ++ "

[Application Description]
" ++ app_text ++ "

[PDDL Domain]
" ++ domain_text ++ "

[Previous problem.pddl]
" ++ previous_problem ++ "

[VAL Error Output]
" ++ val_error ++ "

Instructions (follow all):
- Fix ONLY the issues indicated by VAL / type errors; keep other structure unchanged.
- Ensure :domain remains mobileworld_generic.
- Do NOT introduce new predicates or types beyond the domain; all objects must use a domain type.
- In :objects, every object MUST have a type using the form: obj1 obj2 - type (do not put types alone on a line).
- If VAL reports \"unknown type X\", declare X in :objects with a valid domain type (do NOT treat object names as types).
- If VAL reports \"incorrectly typed\", verify each predicate/action argument matches the domain signature and the object\x27s declared type.
- No comments, no markdown, balanced parentheses only.
Output ONLY the corrected full problem.pddl."

/-! ## Convergence Controller (the direct-PDDL loop of `main`, llm mode) -/

/-- `MAX_RETRIES` of the direct-PDDL repair loop. -/
def MAX_RETRIES : Nat := 10

/-- The sampling temperature of one attempt: the configured temperature on
attempt 1, cooled to `min(temperature, 0.05)` afterwards.  Floats are
modelled as rationals. -/
def tempForAttempt (temperature : ℚ) (attempt : Nat) : ℚ :=
  if attempt = 1 then temperature else min temperature (1/20)

/-- The fixed inputs of one driver run. -/
structure LoopCfg where
  temperature : ℚ
  task_text : String
  rules_text : String
  app_text : String
  domain_text : String

/-- The external collaborators: the generation service (per attempt number,
prompt and temperature, the list of returned candidate texts) and the
verifier process on the written problem text (captured stdout — stderr is
merged — and exit code). -/
structure LoopEnv where
  llm : Nat → String → ℚ → List String
  val : String → String × Int

/-- The mutable loop variables of `main` at the top of one attempt. -/
structure LoopState where
  attempt : Nat
  prompt : String
  lastProblem : Option String
  lastValSummary : String
deriving DecidableEq, Repr

/-- The loop state after a failed local pre-check: the attempt counter
advances, `last_val_summary` records the synthetic error, and the next
prompt is the repair prompt built from that error — no verifier call. -/
def nextStateQuick (cfg : LoopCfg) (st : LoopState) (problem quickErr : String) : LoopState :=
  { attempt := st.attempt + 1
    prompt := build_repair_prompt problem quickErr cfg.task_text cfg.rules_text cfg.app_text cfg.domain_text
    lastProblem := some problem
    lastValSummary := quickErr }

/-- The loop state after a failed verification: the attempt counter advances
and the next prompt is the repair prompt built from the (possibly
type-hinted) verifier output. -/
def nextStateVal (cfg : LoopCfg) (st : LoopState) (problem valErr : String) : LoopState :=
  { attempt := st.attempt + 1
    prompt := build_repair_prompt problem valErr cfg.task_text cfg.rules_text cfg.app_text cfg.domain_text
    lastProblem := some problem
    lastValSummary := st.lastValSummary }

/-- The outcome of one attempt of the loop body. -/
inductive StepOut where
  | passed (problem : String)
  | noResponses
  | failedQuick (st : LoopState) (problem quickErr : String)
  | failedVal (st : LoopState) (problem valOutput : String)
deriving Repr

/-- One iteration of the direct-PDDL loop body: generate, extract, local
pre-check, then (only when the pre-check passes) write and verify. -/
def attemptStep (cfg : LoopCfg) (env : LoopEnv) (st : LoopState) : StepOut :=
  let temp := tempForAttempt cfg.temperature st.attempt
  match env.llm st.attempt st.prompt temp with
  | [] => .noResponses
  | r :: _ =>
    let problem := extract_problem_pddl (strTrim r)
    match quick_pddl_checks problem with
    | (false, quickErr) => .failedQuick (nextStateQuick cfg st problem quickErr) problem quickErr
    | (true, _) =>
      let (stdout, rc) := env.val problem
      let (isValid, valOutput) := run_val stdout rc
      if isValid then .passed problem
      else
        let valErr :=
          if strContains (strToLower valOutput) "unknown type" then
            valOutput ++ "\nAvailable types: " ++ extract_domain_types cfg.domain_text
          else valOutput
        .failedVal (nextStateVal cfg st problem valErr) problem valOutput

/-- How one driver run ended. -/
inductive LoopOutcome where
  | valPassed
  | noResponse
  | fallbackPassed
  | fallbackFailed
deriving DecidableEq, Repr

/-- The observable trace of one driver run: the outcome, the number of
generation-service calls and verifier calls made by the attempt loop, the
calls made by the fallback phase, and the last artifact written to the
output file. -/
structure RunResult where
  outcome : LoopOutcome
  genCalls : Nat
  valCalls : Nat
  fallbackGenCalls : Nat
  fallbackValCalls : Nat
  finalArtifact : Option String
deriving Repr

/-- The exhausted-budget fallback: write the deterministic template artifact
(no generation call), verify it exactly once, and report success or the
fatal `RuntimeError`. -/
def runFallback (env : LoopEnv) (gen valc : Nat) : RunResult :=
  let problem := PROBLEM_TEMPLATE (sanitize_problem_name "fallback_demo")
  let (stdout, rc) := env.val problem
  let (isValid, _) := run_val stdout rc
  { outcome := if isValid then .fallbackPassed else .fallbackFailed
    genCalls := gen
    valCalls := valc
    fallbackGenCalls := 0
    fallbackValCalls := 1
    finalArtifact := some problem }

/-- The attempt loop, structurally recursive on the remaining attempt
budget; exhaustion falls through to `runFallback`. -/
def goAttempts (cfg : LoopCfg) (env : LoopEnv) :
    Nat → LoopState → Nat → Nat → Option String → RunResult
  | 0, _, gen, valc, _ => runFallback env gen valc
  | fuel + 1, st, gen, valc, lastWritten =>
    match attemptStep cfg env st with
    | .passed problem =>
      { outcome := .valPassed, genCalls := gen + 1, valCalls := valc + 1,
        fallbackGenCalls := 0, fallbackValCalls := 0, finalArtifact := some problem }
    | .noResponses =>
      { outcome := .noResponse, genCalls := gen + 1, valCalls := valc,
        fallbackGenCalls := 0, fallbackValCalls := 0, finalArtifact := lastWritten }
    | .failedQuick st' _ _ => goAttempts cfg env fuel st' (gen + 1) valc lastWritten
    | .failedVal st' problem _ => goAttempts cfg env fuel st' (gen + 1) (valc + 1) (some problem)

/-- The whole direct-PDDL driver run: `MAX_RETRIES` attempts starting from
the base prompt, then the deterministic template fallback. -/
def runLlmLoop (cfg : LoopCfg) (env : LoopEnv) : RunResult :=
  goAttempts cfg env MAX_RETRIES
    { attempt := 1
      prompt := build_pddl_prompt cfg.task_text cfg.rules_text cfg.app_text cfg.domain_text
      lastProblem := none
      lastValSummary := "" }
    0 0 none

/-! ## Helper lemmas -/

/-- `find?` returns the element at the first index where the predicate
holds. -/
theorem find?_first {α : Type} (p : α → Bool) :
    ∀ (l : List α) (i : Nat) (hi : i < l.length),
      p (l.get ⟨i, hi⟩) = true →
      (∀ j, ∀ hj : j < l.length, j < i → p (l.get ⟨j, hj⟩) = false) →
      l.find? p = some (l.get ⟨i, hi⟩)
  | [], i, hi, _, _ => absurd hi (by simp)
  | a :: t, 0, _, hp, _ => by
    simpa using List.find?_cons_of_pos t hp
  | a :: t, i + 1, hi, hp, hmin => by
    have ha : p a = false := hmin 0 (by simp) (Nat.succ_pos i)
    rw [List.find?_cons_of_neg t (by simp [ha])]
    exact find?_first p t i (by simpa using Nat.lt_of_succ_lt_succ hi)
      (by simpa using hp)
      (fun j hj hji =>
        by simpa using hmin (j + 1) (by simpa using Nat.succ_lt_succ hj) (Nat.succ_lt_succ hji))

/-- A successful indexed scan stays within bounds. -/
theorem findIdxFrom_some_lt (p : String → Bool) :
    ∀ (l : List String) (i idx : Nat), findIdxFrom p l i = some idx → i ≤ idx ∧ idx < i + l.length
  | [], _, _, h => by simp [findIdxFrom] at h
  | a :: t, i, idx, h => by
    by_cases hp : p a = true
    · simp only [findIdxFrom] at h
      rw [if_pos hp] at h
      injection h with h
      subst h
      refine ⟨Nat.le_refl i, ?_⟩
      simp only [List.length_cons]
      omega
    · simp only [findIdxFrom] at h
      rw [if_neg hp] at h
      have ih := findIdxFrom_some_lt p t (i + 1) idx h
      simp only [List.length_cons]
      omega

/-! ## Claim C1 — an exact `plan valid` line forces a valid classification -/

/-- C1.  Any raw output whose lower-cased form contains a line that strips
to exactly `plan valid` is classified as `success = true`,
`error_type = "valid"`, regardless of all other content. -/
theorem claim_C1 (text : String)
    (h : ∃ l ∈ splitLines (strToLower text), strTrim l = "plan valid") :
    (parse_val_output text).success = true ∧ (parse_val_output text).error_type = "valid" := by
  have hb : hasPlanValidLine text = true := by
    rcases h with ⟨l, hl, he⟩
    unfold hasPlanValidLine
    rw [List.any_eq_true]
    exact ⟨l, hl, by simp [he]⟩
  simp [parse_val_output, hb]

/-- C1 witness: a concrete three-line transcript with a ` Plan valid ` line
amid other content. -/
theorem claim_C1_witness :
    (∃ l ∈ splitLines (strToLower "Checking plan...\n  Plan Valid  \nErrors: 0"),
      strTrim l = "plan valid") ∧
    (parse_val_output "Checking plan...\n  Plan Valid  \nErrors: 0").success = true ∧
    (parse_val_output "Checking plan...\n  Plan Valid  \nErrors: 0").error_type = "valid" :=
  ⟨by decide, claim_C1 "Checking plan...\n  Plan Valid  \nErrors: 0" (by decide)⟩

/-! ## Claim C2 — first-match-wins over the ordered pattern table -/

/-- C2.  Without a `plan valid` line, classification scans `ERROR_PATTERNS`
top to bottom and assigns the kind of the first pattern matching the
lower-cased (noise-cleaned) text: if entry `i` matches and no earlier entry
does, the resulting `error_type` is entry `i`'s kind.  In particular a text
containing both `unsatisfied precondition` and `parser` is classified
`unsatisfied_precondition` (witness below), not `parser_error`. -/
theorem claim_C2 (text : String) (i : Nat) (hi : i < ERROR_PATTERNS.length)
    (hvalid : hasPlanValidLine text = false)
    (hmatch : patMatches (ERROR_PATTERNS.get ⟨i, hi⟩).2 (strToLower (cleanedText text)) = true)
    (hprior : ∀ j, ∀ hj : j < ERROR_PATTERNS.length, j < i →
      patMatches (ERROR_PATTERNS.get ⟨j, hj⟩).2 (strToLower (cleanedText text)) = false) :
    (parse_val_output text).error_type = (ERROR_PATTERNS.get ⟨i, hi⟩).1 := by
  have hfind :
      ERROR_PATTERNS.find? (fun tp => patMatches tp.2 (strToLower (cleanedText text))) =
        some (ERROR_PATTERNS.get ⟨i, hi⟩) :=
    find?_first _ ERROR_PATTERNS i hi hmatch hprior
  simp only [parse_val_output, hvalid, Bool.false_eq_true, if_false]
  unfold extract_error_signature
  simp only [hfind]
  cases hidx : firstMatchIdx (ERROR_PATTERNS.get ⟨i, hi⟩).2 (splitLines (cleanedText text)) <;>
    simp [hidx]

/-- C2 witness: a text containing both `unsatisfied precondition` and
`parser` classifies as `unsatisfied_precondition` — the earlier table entry
wins. -/
theorem claim_C2_witness :
    hasPlanValidLine "the parser saw an unsatisfied precondition at step 2" = false ∧
    (parse_val_output "the parser saw an unsatisfied precondition at step 2").error_type =
      "unsatisfied_precondition" :=
  ⟨by decide,
    claim_C2 "the parser saw an unsatisfied precondition at step 2" 0 (by decide)
      (by decide) (by decide) (fun j hj hji => absurd hji (Nat.not_lt_zero j))⟩

/-! ## Claim C3 — bounded convergence with deterministic fallback -/

/-- The behaviour of the exhausted-budget fallback phase: no generation
call, exactly one verification of the deterministic template artifact, and
the outcome decided by that single verification. -/
theorem runFallback_spec (env : LoopEnv) (gen valc : Nat) :
    (runFallback env gen valc).genCalls = gen ∧
    (runFallback env gen valc).valCalls = valc ∧
    (runFallback env gen valc).fallbackGenCalls = 0 ∧
    (runFallback env gen valc).fallbackValCalls = 1 ∧
    (runFallback env gen valc).finalArtifact =
      some (PROBLEM_TEMPLATE (sanitize_problem_name "fallback_demo")) ∧
    ((runFallback env gen valc).outcome = .fallbackPassed ∨
      (runFallback env gen valc).outcome = .fallbackFailed) ∧
    ((runFallback env gen valc).outcome = .fallbackPassed ↔
      run_val_success (env.val (PROBLEM_TEMPLATE (sanitize_problem_name "fallback_demo"))).1
        (env.val (PROBLEM_TEMPLATE (sanitize_problem_name "fallback_demo"))).2 = true) := by
  unfold runFallback run_val
  rcases hv : env.val (PROBLEM_TEMPLATE (sanitize_problem_name "fallback_demo")) with ⟨stdout, rc⟩
  by_cases hs : run_val_success stdout rc = true <;> simp [hv, hs]

/-- Unfolding: a successful verification ends the loop. -/
theorem goAttempts_succ_passed (cfg : LoopCfg) (env : LoopEnv) (fuel : Nat) (st : LoopState)
    (gen valc : Nat) (lw : Option String) (problem : String)
    (h : attemptStep cfg env st = .passed problem) :
    goAttempts cfg env (fuel + 1) st gen valc lw =
      { outcome := .valPassed, genCalls := gen + 1, valCalls := valc + 1,
        fallbackGenCalls := 0, fallbackValCalls := 0, finalArtifact := some problem } := by
  simp only [goAttempts, h]

/-- Unfolding: an empty response list aborts the loop. -/
theorem goAttempts_succ_noResponses (cfg : LoopCfg) (env : LoopEnv) (fuel : Nat) (st : LoopState)
    (gen valc : Nat) (lw : Option String)
    (h : attemptStep cfg env st = .noResponses) :
    goAttempts cfg env (fuel + 1) st gen valc lw =
      { outcome := .noResponse, genCalls := gen + 1, valCalls := valc,
        fallbackGenCalls := 0, fallbackValCalls := 0, finalArtifact := lw } := by
  simp only [goAttempts, h]

/-- Unfolding: a failed pre-check consumes budget without a verifier call. -/
theorem goAttempts_succ_failedQuick (cfg : LoopCfg) (env : LoopEnv) (fuel : Nat) (st : LoopState)
    (gen valc : Nat) (lw : Option String) (st' : LoopState) (problem qerr : String)
    (h : attemptStep cfg env st = .failedQuick st' problem qerr) :
    goAttempts cfg env (fuel + 1) st gen valc lw =
      goAttempts cfg env fuel st' (gen + 1) valc lw := by
  simp only [goAttempts, h]

/-- Unfolding: a failed verification consumes budget and one verifier
call. -/
theorem goAttempts_succ_failedVal (cfg : LoopCfg) (env : LoopEnv) (fuel : Nat) (st : LoopState)
    (gen valc : Nat) (lw : Option String) (st' : LoopState) (problem vout : String)
    (h : attemptStep cfg env st = .failedVal st' problem vout) :
    goAttempts cfg env (fuel + 1) st gen valc lw =
      goAttempts cfg env fuel st' (gen + 1) (valc + 1) (some problem) := by
  simp only [goAttempts, h]

/-- The attempt loop makes at most one generation call and at most one
verifier call per unit of budget, never generates during the fallback
phase, and on budget exhaustion hands over to the single-verification
fallback on the deterministic template. -/
theorem goAttempts_bounds (cfg : LoopCfg) (env : LoopEnv) :
    ∀ (fuel : Nat) (st : LoopState) (gen valc : Nat) (lw : Option String),
      (goAttempts cfg env fuel st gen valc lw).genCalls ≤ gen + fuel ∧
      (goAttempts cfg env fuel st gen valc lw).valCalls ≤ valc + fuel ∧
      (goAttempts cfg env fuel st gen valc lw).fallbackGenCalls = 0 ∧
      (goAttempts cfg env fuel st gen valc lw).fallbackValCalls ≤ 1 ∧
      ((goAttempts cfg env fuel st gen valc lw).outcome = .fallbackPassed ∨
        (goAttempts cfg env fuel st gen valc lw).outcome = .fallbackFailed →
        (goAttempts cfg env fuel st gen valc lw).genCalls = gen + fuel ∧
        (goAttempts cfg env fuel st gen valc lw).fallbackValCalls = 1 ∧
        (goAttempts cfg env fuel st gen valc lw).finalArtifact =
          some (PROBLEM_TEMPLATE (sanitize_problem_name "fallback_demo")) ∧
        ((goAttempts cfg env fuel st gen valc lw).outcome = .fallbackPassed ↔
          run_val_success (env.val (PROBLEM_TEMPLATE (sanitize_problem_name "fallback_demo"))).1
            (env.val (PROBLEM_TEMPLATE (sanitize_problem_name "fallback_demo"))).2 = true)) := by
  intro fuel
  induction fuel with
  | zero =>
    intro st gen valc lw
    obtain ⟨h1, h2, h3, h4, h5, h6, h7⟩ := runFallback_spec env gen valc
    simp only [goAttempts]
    exact ⟨le_of_eq h1, le_of_eq h2, h3, le_of_eq h4, fun _ => ⟨h1, h4, h5, h7⟩⟩
  | succ fuel ih =>
    intro st gen valc lw
    rcases hstep : attemptStep cfg env st with problem | _ | ⟨st', problem, qerr⟩ | ⟨st', problem, vout⟩
    · rw [goAttempts_succ_passed cfg env fuel st gen valc lw problem hstep]
      refine ⟨(by omega : gen + 1 ≤ gen + (fuel + 1)), (by omega : valc + 1 ≤ valc + (fuel + 1)),
        rfl, (by omega : (0 : Nat) ≤ 1), ?_⟩
      intro ho
      rcases ho with h | h <;> simp at h
    · rw [goAttempts_succ_noResponses cfg env fuel st gen valc lw hstep]
      refine ⟨(by omega : gen + 1 ≤ gen + (fuel + 1)), (by omega : valc ≤ valc + (fuel + 1)),
        rfl, (by omega : (0 : Nat) ≤ 1), ?_⟩
      intro ho
      rcases ho with h | h <;> simp at h
    · rw [goAttempts_succ_failedQuick cfg env fuel st gen valc lw st' problem qerr hstep]
      obtain ⟨h1, h2, h3, h4, h5⟩ := ih st' (gen + 1) valc lw
      refine ⟨by omega, by omega, h3, h4, ?_⟩
      intro ho
      obtain ⟨g1, g2, g3, g4⟩ := h5 ho
      exact ⟨by omega, g2, g3, g4⟩
    · rw [goAttempts_succ_failedVal cfg env fuel st gen valc lw st' problem vout hstep]
      obtain ⟨h1, h2, h3, h4, h5⟩ := ih st' (gen + 1) (valc + 1) (some problem)
      refine ⟨by omega, by omega, h3, h4, ?_⟩
      intro ho
      obtain ⟨g1, g2, g3, g4⟩ := h5 ho
      exact ⟨by omega, g2, g3, g4⟩

/-- C3.  The direct-PDDL Convergence Controller with budget
`MAX_RETRIES = 10` makes at most `MAX_RETRIES` generation calls in total
(hence terminates within `M+1` generation calls; termination itself is by
construction, the loop being structurally bounded by its budget).  When the
budget is exhausted it produces the deterministic template fallback artifact
with no model call, verifies it exactly once, and succeeds or signals the
fatal failure exactly according to that single verification. -/
theorem claim_C3 (cfg : LoopCfg) (env : LoopEnv) :
    (runLlmLoop cfg env).genCalls + (runLlmLoop cfg env).fallbackGenCalls ≤ MAX_RETRIES ∧
    (runLlmLoop cfg env).fallbackGenCalls = 0 ∧
    ((runLlmLoop cfg env).outcome = .fallbackPassed ∨
      (runLlmLoop cfg env).outcome = .fallbackFailed →
      (runLlmLoop cfg env).genCalls = MAX_RETRIES ∧
      (runLlmLoop cfg env).fallbackValCalls = 1 ∧
      (runLlmLoop cfg env).finalArtifact = some (PROBLEM_TEMPLATE "fallback_demo") ∧
      ((runLlmLoop cfg env).outcome = .fallbackPassed ↔
        run_val_success (env.val (PROBLEM_TEMPLATE "fallback_demo")).1
          (env.val (PROBLEM_TEMPLATE "fallback_demo")).2 = true)) := by
  have hs : sanitize_problem_name "fallback_demo" = "fallback_demo" := by decide
  have h := goAttempts_bounds cfg env MAX_RETRIES
    { attempt := 1
      prompt := build_pddl_prompt cfg.task_text cfg.rules_text cfg.app_text cfg.domain_text
      lastProblem := none
      lastValSummary := "" } 0 0 none
  rw [hs] at h
  obtain ⟨h1, h2, h3, h4, h5⟩ := h
  unfold runLlmLoop
  exact ⟨by omega, h3, fun ho => (h5 ho).imp (by omega) id⟩

/-- A concrete driver configuration for witnesses. -/
def cfg0 : LoopCfg :=
  { temperature := 1/5, task_text := "t", rules_text := "r", app_text := "a", domain_text := "d" }

/-- A concrete deterministic environment: the generation service always
returns the single malformed candidate `x` and the verifier always rejects
with empty output and exit code 1. -/
def env0 : LoopEnv :=
  { llm := fun _ _ _ => ["x"], val := fun _ => ("", 1) }

/-- A concrete loop state at attempt 1. -/
def st0 : LoopState :=
  { attempt := 1, prompt := "p", lastProblem := none, lastValSummary := "" }

/-- C3 witness: under the always-rejecting environment the run exhausts its
budget of 10 generation calls and ends in the fatal fallback failure after
exactly one fallback verification. -/
theorem claim_C3_witness :
    ((runLlmLoop cfg0 env0).outcome = .fallbackPassed ∨
      (runLlmLoop cfg0 env0).outcome = .fallbackFailed) ∧
    (runLlmLoop cfg0 env0).genCalls = MAX_RETRIES ∧
    (runLlmLoop cfg0 env0).fallbackValCalls = 1 :=
  ⟨Or.inr (by decide), ((claim_C3 cfg0 env0).2.2 (Or.inr (by decide))).1,
    ((claim_C3 cfg0 env0).2.2 (Or.inr (by decide))).2.1⟩

/-! ## Claim C6 — quick-check failures skip the verifier but consume budget -/

/-- C6.  When the candidate of an iteration fails `quick_pddl_checks`, the
loop body produces the synthetic error `qerr` (recorded as
`last_val_summary` and fed into the repair prompt), the attempt counter
advances by one, and the iteration spends one generation call and **no**
verifier call: the run continues with the verifier-call counter `valc`
unchanged. -/
theorem claim_C6 (cfg : LoopCfg) (env : LoopEnv) (fuel : Nat) (st : LoopState)
    (gen valc : Nat) (lw : Option String) (r : String) (rest : List String) (qerr : String)
    (hllm : env.llm st.attempt st.prompt (tempForAttempt cfg.temperature st.attempt) = r :: rest)
    (hquick : quick_pddl_checks (extract_problem_pddl (strTrim r)) = (false, qerr)) :
    attemptStep cfg env st =
      .failedQuick (nextStateQuick cfg st (extract_problem_pddl (strTrim r)) qerr)
        (extract_problem_pddl (strTrim r)) qerr ∧
    (nextStateQuick cfg st (extract_problem_pddl (strTrim r)) qerr).attempt = st.attempt + 1 ∧
    (nextStateQuick cfg st (extract_problem_pddl (strTrim r)) qerr).lastValSummary = qerr ∧
    (nextStateQuick cfg st (extract_problem_pddl (strTrim r)) qerr).prompt =
      build_repair_prompt (extract_problem_pddl (strTrim r)) qerr
        cfg.task_text cfg.rules_text cfg.app_text cfg.domain_text ∧
    goAttempts cfg env (fuel + 1) st gen valc lw =
      goAttempts cfg env fuel (nextStateQuick cfg st (extract_problem_pddl (strTrim r)) qerr)
        (gen + 1) valc lw := by
  have hstep : attemptStep cfg env st =
      .failedQuick (nextStateQuick cfg st (extract_problem_pddl (strTrim r)) qerr)
        (extract_problem_pddl (strTrim r)) qerr := by
    simp only [attemptStep, hllm, hquick]
  exact ⟨hstep, rfl, rfl, rfl, by simp only [goAttempts, hstep]⟩

/-- C6 witness: the malformed candidate `x` fails the pre-check with a
missing `:domain` section; the loop advances one attempt with no verifier
call. -/
theorem claim_C6_witness :
    env0.llm st0.attempt st0.prompt (tempForAttempt cfg0.temperature st0.attempt) = "x" :: [] ∧
    quick_pddl_checks (extract_problem_pddl (strTrim "x")) =
      (false, "missing required section: :domain") ∧
    goAttempts cfg0 env0 1 st0 0 0 none =
      goAttempts cfg0 env0 0
        (nextStateQuick cfg0 st0 (extract_problem_pddl (strTrim "x"))
          "missing required section: :domain") 1 0 none :=
  ⟨rfl, by decide,
    (claim_C6 cfg0 env0 0 st0 0 0 none "x" [] "missing required section: :domain"
      rfl (by decide)).2.2.2.2⟩

/-! ## Claim C9 — temperature monotonicity across attempts -/

/-- C9.  Within one task's direct-PDDL repair loop the sampling-temperature
sequence is non-increasing: attempt 1 uses the configured temperature and
every later attempt uses `min(temperature, 0.05)`, which is at most that of
any earlier attempt.  (Floats are modelled as rationals; `0.05 = 1/20`.) -/
theorem claim_C9 (T : ℚ) (i j : Nat) (h1 : 1 ≤ i) (hij : i ≤ j) :
    tempForAttempt T j ≤ tempForAttempt T i ∧
    tempForAttempt T 1 = T ∧
    (2 ≤ j → tempForAttempt T j ≤ min T (1/20)) := by
  unfold tempForAttempt
  refine ⟨?_, by simp, fun h2 => ?_⟩
  · split_ifs with ha hb hb
    · exact le_refl T
    · omega
    · exact min_le_left _ _
    · exact le_refl _
  · rw [if_neg (by omega)]

/-- C9 witness: with configured temperature `0.2`, attempt 2 is no hotter
than attempt 1 and is cooled to at most `min(0.2, 0.05)`. -/
theorem claim_C9_witness :
    (1 : Nat) ≤ 1 ∧ (1 : Nat) ≤ 2 ∧ (2 : Nat) ≤ 2 ∧
    tempForAttempt (1/5) 2 ≤ tempForAttempt (1/5) 1 ∧
    tempForAttempt (1/5) 1 = 1/5 ∧
    tempForAttempt (1/5) 2 ≤ min (1/5) (1/20) :=
  ⟨Nat.le_refl 1, by omega, by omega,
    (claim_C9 (1/5) 1 2 (Nat.le_refl 1) (by omega)).1,
    (claim_C9 (1/5) 1 2 (Nat.le_refl 1) (by omega)).2.1,
    (claim_C9 (1/5) 1 2 (Nat.le_refl 1) (by omega)).2.2 (by omega)⟩

/-! ## Claim C4 — behaviour of `run_validate` on launch failure (corrected) -/

/-- C4 counterexample: the claim says a process-launch failure is reported
inside a returned record (`exit_code ≠ 0`, message in `raw_output`) and
"never propagated as a raised fault to the caller".  The source calls
`subprocess.run` with no `try`/`except`, so the launch fault propagates
unchanged and no record is returned. -/
theorem claim_C4_counterexample :
    run_validate (fun _ => "") "2024-01-01T00:00:00" "1"
        (Except.error "FileNotFoundError: [Errno 2] No such file or directory: \x27validate\x27") =
      Except.error "FileNotFoundError: [Errno 2] No such file or directory: \x27validate\x27" :=
  rfl

/-- C4 amended.  `run_validate` returns a record exactly when the verifier
process launches: for a launched process the record always exists and
carries the exit code, the success bit `exit_code == 0`, the digest of the
combined output, and its classification; a launch failure propagates to the
caller as the raised fault itself. -/
theorem claim_C4 (hash : String → String) (now task_id : String) :
    (∀ e, run_validate hash now task_id (.error e) = .error e) ∧
    (∀ p : ProcOut, ∃ r, run_validate hash now task_id (.ok p) = .ok r ∧
      r.exit_code = p.returncode ∧
      r.success = (p.returncode == 0) ∧
      r.output_hash = hash (p.stdout ++ "\n" ++ p.stderr) ∧
      r.parsed = parse_val_output (p.stdout ++ "\n" ++ p.stderr) ∧
      r.stdoutF = p.stdout ∧ r.stderrF = p.stderr) := by
  refine ⟨fun e => rfl, fun p => ⟨_, rfl, rfl, rfl, rfl, rfl, rfl, rfl⟩⟩

/-! ## Claim C7 — the success signal of `run_val` (corrected) -/

/-- The reversed-line scan equals `find?` composed with the count parser. -/
theorem scanErrorsLines_eq_find (ls : List String) :
    scanErrorsLines ls =
      (ls.find? (fun l => strStartsWith (strTrim (strToLower l)) "errors:")).map
        parseErrorsCount := by
  induction ls with
  | nil => rfl
  | cons l ls ih =>
    by_cases h : strStartsWith (strTrim (strToLower l)) "errors:" = true
    · rw [scanErrorsLines, if_pos h]
      simp [List.find?, h]
    · rw [scanErrorsLines, if_neg h]
      simp [List.find?, h, ih]

/-- C7 counterexample: on an output containing `parser failed to read file`
but also a final `Errors: 0, warnings: 0` summary line (exit code 0), the
source returns failure while the claim's description — success exactly when
the last `errors:` line parses to 0, exit-code fallback only when no such
line exists — demands success.  The claim omits the
`parser failed to read file` short-circuit. -/
theorem claim_C7_counterexample :
    run_val_success "parser failed to read file\nErrors: 0, warnings: 0" 0 = false ∧
    run_val_success_claimed "parser failed to read file\nErrors: 0, warnings: 0" 0 = true :=
  ⟨by decide, by decide⟩

/-- C7 amended.  In problem-only mode, `run_val` reports success iff the
stripped lower-cased output does **not** contain
`parser failed to read file`, and then: the last line beginning with
`errors:` decides by its count being 0; when no such line exists — or when
the count of the last such line fails to parse — the decision falls back to
the exit code being 0. -/
theorem claim_C7 (stdout : String) (returncode : Int) :
    run_val_success stdout returncode = run_val_success_described stdout returncode := by
  unfold run_val_success run_val_success_described lastErrorsLine
  rw [scanErrorsLines_eq_find]
  cases hf : (splitLines stdout).reverse.find? (fun l => strStartsWith (strTrim (strToLower l)) "errors:") with
  | none => rfl
  | some l =>
    simp only [Option.map_some']
    cases hp : parseErrorsCount l <;> rfl

/-! ## Claim C8 — the signature context window (corrected) -/

/-- C8 counterexample: on a text whose first (and only) matching line is
line 0 followed by eleven more lines, the source's window
`lines[idx-5 : idx+10]` stops after the ninth following line (`a9`), while
the claim's "5 lines before through 10 lines after" window extends through
`a10`. -/
theorem claim_C8_counterexample :
    extract_error_signature "parser\na1\na2\na3\na4\na5\na6\na7\na8\na9\na10\na11" =
      ("parser_error", some "parser\na1\na2\na3\na4\na5\na6\na7\na8\na9") ∧
    extract_error_signature_claimed "parser\na1\na2\na3\na4\na5\na6\na7\na8\na9\na10\na11" =
      ("parser_error", some "parser\na1\na2\na3\na4\na5\na6\na7\na8\na9\na10") :=
  ⟨by decide, by decide⟩

/-- C8 amended.  When the winning pattern matches some single line (first
matching index `idx`), the signature is the stripped join of the window
from 5 lines before through **9** lines after that line — the slice
`lines[idx-5 : idx+10]`, rendered here as `(take (idx+10)).drop (idx-5)`;
when the pattern matched the full text but no single line
(`firstMatchIdx = none`), the signature is the stripped first 800
characters of the text. -/
theorem claim_C8 (text : String) (tp : String × List String)
    (hfind : ERROR_PATTERNS.find? (fun q => patMatches q.2 (strToLower text)) = some tp) :
    (∀ idx, firstMatchIdx tp.2 (splitLines text) = some idx →
      extract_error_signature text =
        (tp.1, some (strTrim (joinLines (((splitLines text).take (idx + 10)).drop (idx - 5)))))) ∧
    (firstMatchIdx tp.2 (splitLines text) = none →
      extract_error_signature text = (tp.1, some (strTrim (strTake text 800)))) := by
  constructor
  · intro idx hidx
    have hlt : idx < (splitLines text).length :=
      by simpa using (findIdxFrom_some_lt _ (splitLines text) 0 idx hidx).2
    unfold extract_error_signature
    simp only [hfind, hidx]
    have hwin : ((splitLines text).take (idx + 10)).drop (idx - 5) =
        ((splitLines text).drop (idx - 5)).take
          (min (splitLines text).length (idx + 10) - (idx - 5)) := by
      rw [List.drop_take]
      rw [List.take_eq_take]
      simp only [List.length_drop]
      omega
    rw [hwin]
  · intro hidx
    unfold extract_error_signature
    simp only [hfind, hidx]

/-- C8 witness (for the amended window): a pattern matching line 1 of a
three-line text yields the whole text as its window. -/
theorem claim_C8_witness :
    ERROR_PATTERNS.find? (fun q => patMatches q.2 (strToLower "x\nparser here\ny")) =
      some ("parser_error", ["parser"]) ∧
    extract_error_signature "x\nparser here\ny" = ("parser_error", some "x\nparser here\ny") :=
  ⟨by decide,
    ((claim_C8 "x\nparser here\ny" ("parser_error", ["parser"]) (by decide)).1 1
      (by decide)).trans (by decide)⟩

/-! ## Claim C10 — the name sanitizer always yields a well-formed name -/

/-- C10.  `sanitize_problem_name` never returns the empty string: it
returns the lower-cased input filtered to alphanumeric-or-underscore
characters, or the fallback `"problem"` when that filtering empties the
name; every character of the result is alphanumeric or an underscore. -/
theorem claim_C10 (name : String) :
    sanitize_problem_name name ≠ "" ∧
    (∀ c ∈ (sanitize_problem_name name).toList, (c.isAlphanum || c == '_') = true) ∧
    sanitize_problem_name name =
      (if String.mk (((strToLower name).toList).filter (fun ch => ch.isAlphanum || ch == '_')) = ""
       then "problem"
       else String.mk (((strToLower name).toList).filter (fun ch => ch.isAlphanum || ch == '_'))) := by
  unfold sanitize_problem_name
  by_cases h : String.mk (((strToLower name).toList).filter (fun ch => ch.isAlphanum || ch == '_')) = ""
  · rw [if_pos (by simpa using h), if_pos h]
    exact ⟨by decide, by decide, rfl⟩
  · rw [if_neg (by simpa using h), if_neg h]
    refine ⟨h, ?_, rfl⟩
    intro c hc
    have : c ∈ ((strToLower name).toList).filter (fun ch => ch.isAlphanum || ch == '_') := by
      simpa using hc
    exact (List.mem_filter.mp this).2

/-- C10 witness: a name with spaces, punctuation and upper case sanitizes
non-empty, and the first character of the concrete result is admissible. -/
theorem claim_C10_witness :
    sanitize_problem_name "My Problem-1!" ≠ "" ∧
    sanitize_problem_name "My Problem-1!" = "myproblem1" :=
  ⟨(claim_C10 "My Problem-1!").1, by decide⟩

/-! ## Claim C5 — ledger idempotence and summary totals -/

/-- The compact projection preserves the deduplication key. -/
theorem toCompact_hash (r : ValidateRecord) : (toCompact r).output_hash = r.output_hash := rfl

/-- Growing the dataset by one record extends the collected hash list by
that record's (nonempty) hash. -/
theorem load_toFinset_append (ds : List CompactRecord) (c : CompactRecord)
    (hc : c.output_hash ≠ "") :
    (load_existing_hashes (ds ++ [c])).toFinset =
      insert c.output_hash (load_existing_hashes ds).toFinset := by
  unfold load_existing_hashes
  rw [List.map_append, List.filter_append]
  ext y
  simp [hc, or_comm]

/-- Inserting an element already present in the subtrahend changes
nothing. -/
theorem insert_sdiff_eq_of_mem (T S : Finset String) (h : String) (hS : h ∈ S) :
    insert h T \ S = T \ S := by
  ext x
  simp only [Finset.mem_sdiff, Finset.mem_insert]
  constructor
  · rintro ⟨h1 | h1, h2⟩
    · exact absurd (h1 ▸ hS) h2
    · exact ⟨h1, h2⟩
  · rintro ⟨h1, h2⟩
    exact ⟨Or.inr h1, h2⟩

/-- Moving a fresh element from the inserted side to the subtracted side
costs exactly one. -/
theorem sdiff_insert_card (T S : Finset String) (h : String) (hS : h ∉ S) :
    (insert h T \ S).card = (T \ insert h S).card + 1 := by
  by_cases hT : h ∈ T
  · have e1 : insert h T = T := Finset.insert_eq_self.mpr hT
    have e2 : T \ insert h S = (T \ S).erase h := by
      ext x
      simp only [Finset.mem_sdiff, Finset.mem_insert, Finset.mem_erase]
      tauto
    have hmem : h ∈ T \ S := Finset.mem_sdiff.mpr ⟨hT, hS⟩
    rw [e1, e2, Finset.card_erase_of_mem hmem]
    have hpos : 0 < (T \ S).card := Finset.card_pos.mpr ⟨h, hmem⟩
    omega
  · have e1 : insert h T \ S = insert h (T \ S) := by
      ext x
      simp only [Finset.mem_sdiff, Finset.mem_insert]
      constructor
      · rintro ⟨h1 | h1, h2⟩
        · exact Or.inl h1
        · exact Or.inr ⟨h1, h2⟩
      · rintro (h1 | ⟨h1, h2⟩)
        · exact ⟨Or.inl h1, h1 ▸ hS⟩
        · exact ⟨Or.inr h1, h2⟩
    have e2 : T \ insert h S = T \ S := by
      ext x
      simp only [Finset.mem_sdiff, Finset.mem_insert]
      constructor
      · rintro ⟨h1, h2⟩
        exact ⟨h1, fun hx => h2 (Or.inr hx)⟩
      · rintro ⟨h1, h2⟩
        refine ⟨h1, ?_⟩
        rintro (rfl | hx)
        · exact hT h1
        · exact h2 hx
    rw [e1, e2, Finset.card_insert_of_not_mem (fun hx => hT (Finset.mem_sdiff.mp hx).1)]

/-- Appending the same record again is a skipped-duplicate no-op. -/
theorem append_idem (ds : List CompactRecord) (r : ValidateRecord) (hr : r.output_hash ≠ "") :
    append_to_dataset (append_to_dataset ds r).1 r = ((append_to_dataset ds r).1, false) := by
  by_cases hm : r.output_hash ∈ load_existing_hashes ds
  · simp [append_to_dataset, hm]
  · have hmem2 : r.output_hash ∈ load_existing_hashes (ds ++ [toCompact r]) := by
      unfold load_existing_hashes
      rw [List.map_append, List.filter_append]
      simp [toCompact_hash, hr]
    simp [append_to_dataset, hm, hmem2]

/-- The dataset grows by exactly the number of previously-unseen distinct
hashes among the appended records. -/
theorem foldAppend_length :
    ∀ (rs : List ValidateRecord) (ds : List CompactRecord),
      (∀ x ∈ rs, x.output_hash ≠ "") →
      (foldAppend ds rs).length =
        ds.length +
          (((rs.map (fun x => x.output_hash)).toFinset) \
            (load_existing_hashes ds).toFinset).card
  | [], ds, _ => by simp [foldAppend]
  | r :: t, ds, hall => by
    have hr : r.output_hash ≠ "" := hall r (by simp)
    have ht : ∀ x ∈ t, x.output_hash ≠ "" := fun x hx => hall x (by simp [hx])
    have hfold : foldAppend ds (r :: t) = foldAppend (append_to_dataset ds r).1 t := rfl
    rw [hfold]
    simp only [List.map_cons, List.toFinset_cons]
    by_cases hm : r.output_hash ∈ load_existing_hashes ds
    · have happ : (append_to_dataset ds r).1 = ds := by simp [append_to_dataset, hm]
      rw [happ, foldAppend_length t ds ht,
        insert_sdiff_eq_of_mem _ _ _ (List.mem_toFinset.mpr hm)]
    · have happ : (append_to_dataset ds r).1 = ds ++ [toCompact r] := by
        simp [append_to_dataset, hm]
      rw [happ, foldAppend_length t (ds ++ [toCompact r]) ht,
        load_toFinset_append ds (toCompact r) hr, toCompact_hash,
        sdiff_insert_card _ _ _ (fun hx => hm (List.mem_toFinset.mp hx))]
      simp only [List.length_append, List.length_cons, List.length_nil]
      omega

/-- C5.  Ledger idempotence by `output_hash`: appending the same record a
second time is a no-op reported as a skipped duplicate (so the record has
exactly one entry), and after a reset, `generate_summary`'s
`total_records` equals the number of distinct `output_hash` values among
the records appended.  (As in the source, the key is the SHA-1 digest of
the raw output, so it is never the empty string — the hypotheses record
exactly that.) -/
theorem claim_C5 (ds : List CompactRecord) (r : ValidateRecord) (rs : List ValidateRecord)
    (hr : r.output_hash ≠ "") (hrs : ∀ x ∈ rs, x.output_hash ≠ "") :
    append_to_dataset (append_to_dataset ds r).1 r = ((append_to_dataset ds r).1, false) ∧
    (generate_summary (foldAppend reset_dataset rs)).total_records =
      ((rs.map (fun x => x.output_hash)).toFinset).card := by
  refine ⟨append_idem ds r hr, ?_⟩
  have htot : (generate_summary (foldAppend reset_dataset rs)).total_records =
      (foldAppend reset_dataset rs).length := rfl
  rw [htot, foldAppend_length rs reset_dataset hrs]
  simp [reset_dataset, load_existing_hashes]

/-- A successful classification value for witness records. -/
def parsed0 : Parsed :=
  { success := true, error_type := "valid", error_signature := "Plan valid",
    message := "Plan valid" }

/-- A concrete verification record with hash `h1`. -/
def rec1 : ValidateRecord :=
  { task_id := "1", domain_file := "domain.pddl", problem_file := "problem/1.problem.pddl",
    plan_file := "plan/1.plan", command := "validate -v domain.pddl", timestamp := "t1",
    success := true, exit_code := 0, output_hash := "h1", parsed := parsed0,
    stdoutF := "Plan valid", stderrF := "" }

/-- A concrete verification record with hash `h2`. -/
def rec2 : ValidateRecord :=
  { task_id := "2", domain_file := "domain.pddl", problem_file := "problem/2.problem.pddl",
    plan_file := "plan/2.plan", command := "validate -v domain.pddl", timestamp := "t2",
    success := false, exit_code := 1, output_hash := "h2", parsed := parsed0,
    stdoutF := "bad plan", stderrF := "" }

/-- C5 witness: double-appending `rec1` leaves one entry, and a batch with
hashes `h1, h1, h2` summarizes to 2 total records. -/
theorem claim_C5_witness :
    ("h1" : String) ≠ "" ∧
    append_to_dataset (append_to_dataset [] rec1).1 rec1 = ((append_to_dataset [] rec1).1, false) ∧
    (generate_summary (foldAppend reset_dataset [rec1, rec1, rec2])).total_records = 2 :=
  ⟨by decide, (claim_C5 [] rec1 [rec1, rec1, rec2] (by decide) (by decide)).1,
    ((claim_C5 [] rec1 [rec1, rec1, rec2] (by decide) (by decide)).2).trans (by decide)⟩

end PDDLVal
